import Mathlib

/-!
Shallow embedding of `src/weather.py`, a command-line weather lookup
utility, together with proofs of the specification's claims about it.

Python strings are modelled as `List Char` (`PyStr`); Python `int` as
`Int`; fallible operations return `Option`/`Except`.  The auxiliary
`style` module is not part of the sources; its constants are modelled
from the spec (see `Style` below).
-/

namespace CliWeather

/-- A Python `str` value, modelled as its list of Unicode code points. -/
abbrev PyStr := List Char

/-! ## The `style` module

Modelled from the spec: the `style` module imported by `weather.py` is not
among the sources.  Per §4.5 of the design it provides named terminal
color/style tokens (reset/inverse and a palette of foreground colors used
by the weather table) and a fixed field width `PADDING`.  Colors are kept
as an enumeration; `colorText` gives each token a concrete ANSI escape
rendering so that terminal output can be stated as a single string. -/

/-- Modelled from the spec: the named color/style tokens of the missing
`style` module, exactly those referenced by `weather.py`. -/
inductive Color where
  | RED
  | CYAN
  | BLUE
  | WHITE
  | PALEBLUEHUE
  | ASH
  | LIGHTBLUE
  | BROWN
  | YELLOW
  | RESET
  | REVERSE
  deriving DecidableEq, Repr

/-- Modelled from the spec: ANSI escape text emitted when the terminal is
switched to a given style token (§4.5 "color styling", "inverted/highlighted
styling", "reset"). -/
def colorText : Color → PyStr
  | Color.RED => "\x1b[31m".data
  | Color.CYAN => "\x1b[36m".data
  | Color.BLUE => "\x1b[34m".data
  | Color.WHITE => "\x1b[37m".data
  | Color.PALEBLUEHUE => "\x1b[38;5;153m".data
  | Color.ASH => "\x1b[38;5;245m".data
  | Color.LIGHTBLUE => "\x1b[94m".data
  | Color.BROWN => "\x1b[38;5;130m".data
  | Color.YELLOW => "\x1b[33m".data
  | Color.RESET => "\x1b[0m".data
  | Color.REVERSE => "\x1b[7m".data

/-- Modelled from the spec: the fixed field width used for centered output
(§4.5 "centered in a fixed-width field"). -/
def PADDING : Nat := 20

/-! ## Weather condition code table (`weather.py` lines 13-30)

Python `x in range(a, b)` on an `int` is `a ≤ x < b`; membership in a
one-element tuple `(v,)` is `x = v`. -/

/-- Membership of an integer in Python's `range(lo, hi)`. -/
def pyRange (lo hi : Int) (c : Int) : Prop := lo ≤ c ∧ c < hi

/-- Membership of an integer in a one-element Python tuple `(v,)`. -/
def pySingleton (v : Int) (c : Int) : Prop := c = v

instance (lo hi c : Int) : Decidable (pyRange lo hi c) := by
  unfold pyRange; infer_instance

instance (v c : Int) : Decidable (pySingleton v c) := by
  unfold pySingleton; infer_instance

def THUNDERSTORM : Int → Prop := pyRange 200 300
def DRIZZLE : Int → Prop := pyRange 300 400
def RAIN : Int → Prop := pyRange 500 600
def SNOW : Int → Prop := pyRange 600 700
def MIST : Int → Prop := pySingleton 701
def SMOKE : Int → Prop := pySingleton 711
def HAZE : Int → Prop := pySingleton 721
def DUSTWHRIL : Int → Prop := pySingleton 731
def FOG : Int → Prop := pySingleton 741
def SAND : Int → Prop := pySingleton 751
def DUST : Int → Prop := pySingleton 761
def ASH : Int → Prop := pySingleton 762
def SQUALL : Int → Prop := pySingleton 771
def TORNADO : Int → Prop := pySingleton 781
def CLEAR : Int → Prop := pyRange 800 801
def CLOUDY : Int → Prop := pyRange 801 900

instance (c : Int) : Decidable (THUNDERSTORM c) := by unfold THUNDERSTORM; infer_instance
instance (c : Int) : Decidable (DRIZZLE c) := by unfold DRIZZLE; infer_instance
instance (c : Int) : Decidable (RAIN c) := by unfold RAIN; infer_instance
instance (c : Int) : Decidable (SNOW c) := by unfold SNOW; infer_instance
instance (c : Int) : Decidable (MIST c) := by unfold MIST; infer_instance
instance (c : Int) : Decidable (SMOKE c) := by unfold SMOKE; infer_instance
instance (c : Int) : Decidable (HAZE c) := by unfold HAZE; infer_instance
instance (c : Int) : Decidable (DUSTWHRIL c) := by unfold DUSTWHRIL; infer_instance
instance (c : Int) : Decidable (FOG c) := by unfold FOG; infer_instance
instance (c : Int) : Decidable (SAND c) := by unfold SAND; infer_instance
instance (c : Int) : Decidable (DUST c) := by unfold DUST; infer_instance
instance (c : Int) : Decidable (ASH c) := by unfold ASH; infer_instance
instance (c : Int) : Decidable (SQUALL c) := by unfold SQUALL; infer_instance
instance (c : Int) : Decidable (TORNADO c) := by unfold TORNADO; infer_instance
instance (c : Int) : Decidable (CLEAR c) := by unfold CLEAR; infer_instance
instance (c : Int) : Decidable (CLOUDY c) := by unfold CLOUDY; infer_instance

/-! ## `_select_weather_display_params` (`weather.py` lines 134-178)

The symbol string literals below reproduce, code point for code point, the
literals of the source file (which stores them in a doubly UTF-8-encoded
form); they are written with `\u` escapes to keep them byte-exact. -/

/-- `_select_weather_display_params`: ordered if/elif chain mapping a weather
condition code to a `(symbol, color)` pair, falling through to a rainbow
symbol with the reset color. -/
def select_weather_display_params (weather_id : Int) : PyStr × Color :=
  if THUNDERSTORM weather_id then ("\u00E2\u203A\u02C6\u00EF\u00B8".data, Color.RED)
  else if DRIZZLE weather_id then ("\u011F\u0178\u0152\u00A7\u00EF\u00B8".data, Color.CYAN)
  else if RAIN weather_id then ("\u00E2\u02DC\u201D".data, Color.BLUE)
  else if SNOW weather_id then ("\u00E2\u201E\u00EF\u00B8".data, Color.WHITE)
  else if MIST weather_id then ("\u011F\u0178\u0152\u00AB\u00EF\u00B8".data, Color.PALEBLUEHUE)
  else if SMOKE weather_id then ("\u011F\u0178\u2019\u00A8".data, Color.ASH)
  else if HAZE weather_id then ("\u011F\u0178\u02DC\u00B6\u00E2\u20AC\u011F\u0178\u0152\u00AB\u00EF\u00B8".data, Color.LIGHTBLUE)
  else if DUSTWHRIL weather_id then ("\u011F\u0178\u0152\u00AA\u00EF\u00B8".data, Color.BROWN)
  else if FOG weather_id then ("\u011F\u0178\u02DC\u00B6\u00E2\u20AC\u011F\u0178\u0152\u00AB\u00EF\u00B8".data, Color.ASH)
  else if SAND weather_id then ("\u011F\u0178\u0153\u00EF\u00B8".data, Color.YELLOW)
  else if DUST weather_id then ("\u011F\u0178\u2019\u00A8".data, Color.BROWN)
  else if ASH weather_id then ("\u011F\u0178\u0152\u2039".data, Color.RED)
  else if SQUALL weather_id then ("\u011F\u0178\u0152\u00AC\u00EF\u00B8".data, Color.BLUE)
  else if TORNADO weather_id then ("\u011F\u0178\u0152\u00AA\u00EF\u00B8".data, Color.WHITE)
  else if CLEAR weather_id then ("\u00E2\u02DC\u20AC\u00EF\u00B8".data, Color.YELLOW)
  else if CLOUDY weather_id then ("\u00E2\u203A\u2026".data, Color.WHITE)
  else ("\u011F\u0178\u0152\u02C6".data, Color.RESET)

/-! ### Row lemmas for the dispatch table -/

lemma select_of_thunderstorm (c : Int) (h : THUNDERSTORM c) :
    select_weather_display_params c = ("\u00E2\u203A\u02C6\u00EF\u00B8".data, Color.RED) := by
  have h0 : (200 : Int) ≤ c ∧ c < 300 := h
  unfold select_weather_display_params
  rw [if_pos h]

lemma select_of_drizzle (c : Int) (h : DRIZZLE c) :
    select_weather_display_params c = ("\u011F\u0178\u0152\u00A7\u00EF\u00B8".data, Color.CYAN) := by
  have h0 : (300 : Int) ≤ c ∧ c < 400 := h
  have hn0 : ¬ THUNDERSTORM c := fun hh => absurd (show (200 : Int) ≤ c ∧ c < 300 from hh) (by omega)
  unfold select_weather_display_params
  rw [if_neg hn0, if_pos h]

lemma select_of_rain (c : Int) (h : RAIN c) :
    select_weather_display_params c = ("\u00E2\u02DC\u201D".data, Color.BLUE) := by
  have h0 : (500 : Int) ≤ c ∧ c < 600 := h
  have hn0 : ¬ THUNDERSTORM c := fun hh => absurd (show (200 : Int) ≤ c ∧ c < 300 from hh) (by omega)
  have hn1 : ¬ DRIZZLE c := fun hh => absurd (show (300 : Int) ≤ c ∧ c < 400 from hh) (by omega)
  unfold select_weather_display_params
  rw [if_neg hn0, if_neg hn1, if_pos h]

lemma select_of_snow (c : Int) (h : SNOW c) :
    select_weather_display_params c = ("\u00E2\u201E\u00EF\u00B8".data, Color.WHITE) := by
  have h0 : (600 : Int) ≤ c ∧ c < 700 := h
  have hn0 : ¬ THUNDERSTORM c := fun hh => absurd (show (200 : Int) ≤ c ∧ c < 300 from hh) (by omega)
  have hn1 : ¬ DRIZZLE c := fun hh => absurd (show (300 : Int) ≤ c ∧ c < 400 from hh) (by omega)
  have hn2 : ¬ RAIN c := fun hh => absurd (show (500 : Int) ≤ c ∧ c < 600 from hh) (by omega)
  unfold select_weather_display_params
  rw [if_neg hn0, if_neg hn1, if_neg hn2, if_pos h]

lemma select_of_mist (c : Int) (h : MIST c) :
    select_weather_display_params c = ("\u011F\u0178\u0152\u00AB\u00EF\u00B8".data, Color.PALEBLUEHUE) := by
  have hc : c = 701 := h
  subst hc
  decide

lemma select_of_smoke (c : Int) (h : SMOKE c) :
    select_weather_display_params c = ("\u011F\u0178\u2019\u00A8".data, Color.ASH) := by
  have hc : c = 711 := h
  subst hc
  decide

lemma select_of_haze (c : Int) (h : HAZE c) :
    select_weather_display_params c = ("\u011F\u0178\u02DC\u00B6\u00E2\u20AC\u011F\u0178\u0152\u00AB\u00EF\u00B8".data, Color.LIGHTBLUE) := by
  have hc : c = 721 := h
  subst hc
  decide

lemma select_of_dustwhril (c : Int) (h : DUSTWHRIL c) :
    select_weather_display_params c = ("\u011F\u0178\u0152\u00AA\u00EF\u00B8".data, Color.BROWN) := by
  have hc : c = 731 := h
  subst hc
  decide

lemma select_of_fog (c : Int) (h : FOG c) :
    select_weather_display_params c = ("\u011F\u0178\u02DC\u00B6\u00E2\u20AC\u011F\u0178\u0152\u00AB\u00EF\u00B8".data, Color.ASH) := by
  have hc : c = 741 := h
  subst hc
  decide

lemma select_of_sand (c : Int) (h : SAND c) :
    select_weather_display_params c = ("\u011F\u0178\u0153\u00EF\u00B8".data, Color.YELLOW) := by
  have hc : c = 751 := h
  subst hc
  decide

lemma select_of_dust (c : Int) (h : DUST c) :
    select_weather_display_params c = ("\u011F\u0178\u2019\u00A8".data, Color.BROWN) := by
  have hc : c = 761 := h
  subst hc
  decide

lemma select_of_ash (c : Int) (h : ASH c) :
    select_weather_display_params c = ("\u011F\u0178\u0152\u2039".data, Color.RED) := by
  have hc : c = 762 := h
  subst hc
  decide

lemma select_of_squall (c : Int) (h : SQUALL c) :
    select_weather_display_params c = ("\u011F\u0178\u0152\u00AC\u00EF\u00B8".data, Color.BLUE) := by
  have hc : c = 771 := h
  subst hc
  decide

lemma select_of_tornado (c : Int) (h : TORNADO c) :
    select_weather_display_params c = ("\u011F\u0178\u0152\u00AA\u00EF\u00B8".data, Color.WHITE) := by
  have hc : c = 781 := h
  subst hc
  decide

lemma select_of_clear (c : Int) (h : CLEAR c) :
    select_weather_display_params c = ("\u00E2\u02DC\u20AC\u00EF\u00B8".data, Color.YELLOW) := by
  have hc : c = 800 := by
    have h2 : (800 : Int) ≤ c ∧ c < 801 := h
    omega
  subst hc
  decide

lemma select_of_cloudy (c : Int) (h : CLOUDY c) :
    select_weather_display_params c = ("\u00E2\u203A\u2026".data, Color.WHITE) := by
  have h0 : (801 : Int) ≤ c ∧ c < 900 := h
  have hn0 : ¬ THUNDERSTORM c := fun hh => absurd (show (200 : Int) ≤ c ∧ c < 300 from hh) (by omega)
  have hn1 : ¬ DRIZZLE c := fun hh => absurd (show (300 : Int) ≤ c ∧ c < 400 from hh) (by omega)
  have hn2 : ¬ RAIN c := fun hh => absurd (show (500 : Int) ≤ c ∧ c < 600 from hh) (by omega)
  have hn3 : ¬ SNOW c := fun hh => absurd (show (600 : Int) ≤ c ∧ c < 700 from hh) (by omega)
  have hn4 : ¬ MIST c := fun hh => absurd (show c = 701 from hh) (by omega)
  have hn5 : ¬ SMOKE c := fun hh => absurd (show c = 711 from hh) (by omega)
  have hn6 : ¬ HAZE c := fun hh => absurd (show c = 721 from hh) (by omega)
  have hn7 : ¬ DUSTWHRIL c := fun hh => absurd (show c = 731 from hh) (by omega)
  have hn8 : ¬ FOG c := fun hh => absurd (show c = 741 from hh) (by omega)
  have hn9 : ¬ SAND c := fun hh => absurd (show c = 751 from hh) (by omega)
  have hn10 : ¬ DUST c := fun hh => absurd (show c = 761 from hh) (by omega)
  have hn11 : ¬ ASH c := fun hh => absurd (show c = 762 from hh) (by omega)
  have hn12 : ¬ SQUALL c := fun hh => absurd (show c = 771 from hh) (by omega)
  have hn13 : ¬ TORNADO c := fun hh => absurd (show c = 781 from hh) (by omega)
  have hn14 : ¬ CLEAR c := fun hh => absurd (show (800 : Int) ≤ c ∧ c < 801 from hh) (by omega)
  unfold select_weather_display_params
  rw [if_neg hn0, if_neg hn1, if_neg hn2, if_neg hn3, if_neg hn4, if_neg hn5, if_neg hn6, if_neg hn7, if_neg hn8, if_neg hn9, if_neg hn10, if_neg hn11, if_neg hn12, if_neg hn13, if_neg hn14, if_pos h]

/-- C1: every weather code in a listed range or singleton of the §4.5 table is
mapped by `_select_weather_display_params` to exactly that row's
`(symbol, color)` pair; in particular code 800 selects the Clear pair and
code 801 selects the Cloudy pair. -/
theorem select_weather_display_params_table (c : Int) :
    (THUNDERSTORM c →
      select_weather_display_params c = ("\u00E2\u203A\u02C6\u00EF\u00B8".data, Color.RED)) ∧
    (DRIZZLE c →
      select_weather_display_params c = ("\u011F\u0178\u0152\u00A7\u00EF\u00B8".data, Color.CYAN)) ∧
    (RAIN c →
      select_weather_display_params c = ("\u00E2\u02DC\u201D".data, Color.BLUE)) ∧
    (SNOW c →
      select_weather_display_params c = ("\u00E2\u201E\u00EF\u00B8".data, Color.WHITE)) ∧
    (MIST c →
      select_weather_display_params c = ("\u011F\u0178\u0152\u00AB\u00EF\u00B8".data, Color.PALEBLUEHUE)) ∧
    (SMOKE c →
      select_weather_display_params c = ("\u011F\u0178\u2019\u00A8".data, Color.ASH)) ∧
    (HAZE c →
      select_weather_display_params c =
        ("\u011F\u0178\u02DC\u00B6\u00E2\u20AC\u011F\u0178\u0152\u00AB\u00EF\u00B8".data, Color.LIGHTBLUE)) ∧
    (DUSTWHRIL c →
      select_weather_display_params c = ("\u011F\u0178\u0152\u00AA\u00EF\u00B8".data, Color.BROWN)) ∧
    (FOG c →
      select_weather_display_params c =
        ("\u011F\u0178\u02DC\u00B6\u00E2\u20AC\u011F\u0178\u0152\u00AB\u00EF\u00B8".data, Color.ASH)) ∧
    (SAND c →
      select_weather_display_params c = ("\u011F\u0178\u0153\u00EF\u00B8".data, Color.YELLOW)) ∧
    (DUST c →
      select_weather_display_params c = ("\u011F\u0178\u2019\u00A8".data, Color.BROWN)) ∧
    (ASH c →
      select_weather_display_params c = ("\u011F\u0178\u0152\u2039".data, Color.RED)) ∧
    (SQUALL c →
      select_weather_display_params c = ("\u011F\u0178\u0152\u00AC\u00EF\u00B8".data, Color.BLUE)) ∧
    (TORNADO c →
      select_weather_display_params c = ("\u011F\u0178\u0152\u00AA\u00EF\u00B8".data, Color.WHITE)) ∧
    (CLEAR c →
      select_weather_display_params c = ("\u00E2\u02DC\u20AC\u00EF\u00B8".data, Color.YELLOW)) ∧
    (CLOUDY c →
      select_weather_display_params c = ("\u00E2\u203A\u2026".data, Color.WHITE)) ∧
    select_weather_display_params 800 = ("\u00E2\u02DC\u20AC\u00EF\u00B8".data, Color.YELLOW) ∧
    select_weather_display_params 801 = ("\u00E2\u203A\u2026".data, Color.WHITE) :=
  ⟨select_of_thunderstorm c, select_of_drizzle c, select_of_rain c, select_of_snow c,
   select_of_mist c, select_of_smoke c, select_of_haze c, select_of_dustwhril c,
   select_of_fog c, select_of_sand c, select_of_dust c, select_of_ash c,
   select_of_squall c, select_of_tornado c, select_of_clear c, select_of_cloudy c,
   select_of_clear 800 (by decide), select_of_cloudy 801 (by decide)⟩

/-- Witness for C1: the table theorem applied at the concrete codes 250, 800
and 801. -/
theorem select_weather_display_params_table_witness :
    select_weather_display_params 250 = ("\u00E2\u203A\u02C6\u00EF\u00B8".data, Color.RED) ∧
    select_weather_display_params 800 = ("\u00E2\u02DC\u20AC\u00EF\u00B8".data, Color.YELLOW) ∧
    select_weather_display_params 801 = ("\u00E2\u203A\u2026".data, Color.WHITE) :=
  ⟨(select_weather_display_params_table 250).1 (by decide),
   (select_weather_display_params_table 800).2.2.2.2.2.2.2.2.2.2.2.2.2.2.2.2.1,
   (select_weather_display_params_table 801).2.2.2.2.2.2.2.2.2.2.2.2.2.2.2.2.2⟩

/-- C5: any integer weather code matching none of the listed ranges and
singletons falls through to the fallback `(rainbow, reset)` pair; the
function is total on `Int` by construction. -/
theorem select_weather_display_params_fallback (c : Int)
    (h : ¬ THUNDERSTORM c ∧ ¬ DRIZZLE c ∧ ¬ RAIN c ∧ ¬ SNOW c ∧ ¬ MIST c ∧ ¬ SMOKE c ∧
         ¬ HAZE c ∧ ¬ DUSTWHRIL c ∧ ¬ FOG c ∧ ¬ SAND c ∧ ¬ DUST c ∧ ¬ ASH c ∧
         ¬ SQUALL c ∧ ¬ TORNADO c ∧ ¬ CLEAR c ∧ ¬ CLOUDY c) :
    select_weather_display_params c = ("\u011F\u0178\u0152\u02C6".data, Color.RESET) := by
  obtain ⟨h1, h2, h3, h4, h5, h6, h7, h8, h9, h10, h11, h12, h13, h14, h15, h16⟩ := h
  unfold select_weather_display_params
  rw [if_neg h1, if_neg h2, if_neg h3, if_neg h4, if_neg h5, if_neg h6, if_neg h7,
    if_neg h8, if_neg h9, if_neg h10, if_neg h11, if_neg h12, if_neg h13, if_neg h14,
    if_neg h15, if_neg h16]

/-- Witness for C5: the fallback theorem applied at the unlisted codes 700
and 999. -/
theorem select_weather_display_params_fallback_witness :
    select_weather_display_params 700 = ("\u011F\u0178\u0152\u02C6".data, Color.RESET) ∧
    select_weather_display_params 999 = ("\u011F\u0178\u0152\u02C6".data, Color.RESET) :=
  ⟨select_weather_display_params_fallback 700 (by decide),
   select_weather_display_params_fallback 999 (by decide)⟩

/-! ## JSON values (`json.loads` results)

Python's `json` module parses integers to `int` and decimal numbers to
`float`.  Floating point is not modelled; a non-integer JSON number is
carried as the text Python's `str()` would print for it, which is all the
program ever does with the temperature. -/

inductive Json where
  | str (s : PyStr)
  | intNum (n : Int)
  | floatNum (printed : PyStr)
  | bool (b : Bool)
  | null
  | arr (elems : List Json)
  | obj (fields : List (PyStr × Json))

/-! ## `get_weather_data` (`weather.py` lines 79-103)

`urlopen` either returns a response whose body is read in full, or raises
`HTTPError` carrying the HTTP status code.  `sys.exit(message)` prints the
message and terminates the process with exit status 1.  The JSON parser
itself is not embedded: the model receives `json.loads` as a function
`PyStr → Option Json` (`none` = `JSONDecodeError`) together with the single
HTTP outcome that the one `urlopen` call produced. -/

/-- Outcome of the single `request.urlopen(query_url)` call. -/
inductive HTTPOutcome where
  | ok (body : PyStr)
  | httpError (code : Nat)
  deriving DecidableEq, Repr

/-- A `sys.exit(message)` process termination: the printed message and the
process exit status (1 for a string argument). -/
structure SysExit where
  message : PyStr
  status : Nat
  deriving DecidableEq, Repr

/-- `get_weather_data`: dispatch on the HTTP outcome, then parse the body;
`Except.error` is a `sys.exit` termination, `Except.ok` the parsed value. -/
def get_weather_data (jsonLoads : PyStr → Option Json) (resp : HTTPOutcome) :
    Except SysExit Json :=
  match resp with
  | HTTPOutcome.httpError code =>
    if code = 401 then
      Except.error ⟨"Access denied. Check your API key.".data, 1⟩
    else if code = 404 then
      Except.error ⟨"Can't find weather data for this city.".data, 1⟩
    else
      Except.error ⟨"Something went wrong... (".data ++ (Nat.repr code).data ++ ")".data, 1⟩
  | HTTPOutcome.ok body =>
    match jsonLoads body with
    | some data => Except.ok data
    | none => Except.error ⟨"Couldn't read the server response.".data, 1⟩

/-- C2: an HTTP error status terminates the process with non-zero exit and
exactly the message determined by the status: the fixed 401 and 404 texts,
and otherwise a message embedding the numeric status code; the function
consumes the outcome of the single `urlopen` call, so no retry exists. -/
theorem get_weather_data_http_errors (jsonLoads : PyStr → Option Json) (code : Nat)
    (h401 : code ≠ 401) (h404 : code ≠ 404) :
    get_weather_data jsonLoads (HTTPOutcome.httpError 401) =
      Except.error ⟨"Access denied. Check your API key.".data, 1⟩ ∧
    get_weather_data jsonLoads (HTTPOutcome.httpError 404) =
      Except.error ⟨"Can't find weather data for this city.".data, 1⟩ ∧
    (∃ e : SysExit,
      get_weather_data jsonLoads (HTTPOutcome.httpError code) = Except.error e ∧
      e.message =
        "Something went wrong... (".data ++ (Nat.repr code).data ++ ")".data ∧
      (Nat.repr code).data <:+: e.message ∧
      e.status ≠ 0) := by
  refine ⟨rfl, rfl, ⟨"Something went wrong... (".data ++ (Nat.repr code).data ++ ")".data, 1⟩,
    ?_, rfl, ⟨"Something went wrong... (".data, ")".data, rfl⟩, one_ne_zero⟩
  simp only [get_weather_data]
  rw [if_neg h401, if_neg h404]

/-- Witness for C2: the HTTP-error theorem applied at status code 500. -/
theorem get_weather_data_http_errors_witness :
    get_weather_data (fun _ => none) (HTTPOutcome.httpError 401) =
      Except.error ⟨"Access denied. Check your API key.".data, 1⟩ ∧
    get_weather_data (fun _ => none) (HTTPOutcome.httpError 404) =
      Except.error ⟨"Can't find weather data for this city.".data, 1⟩ ∧
    (∃ e : SysExit,
      get_weather_data (fun _ => none) (HTTPOutcome.httpError 500) = Except.error e ∧
      e.message =
        "Something went wrong... (".data ++ (Nat.repr 500).data ++ ")".data ∧
      (Nat.repr 500).data <:+: e.message ∧
      e.status ≠ 0) :=
  get_weather_data_http_errors (fun _ => none) 500 (by decide) (by decide)

/-- C6: on a successful HTTP response the body is parsed as JSON; the call
terminates with "Couldn't read the server response." and non-zero exit
exactly when parsing fails, and otherwise returns the parsed structure. -/
theorem get_weather_data_parse (jsonLoads : PyStr → Option Json) (body : PyStr) :
    ((∃ e, get_weather_data jsonLoads (HTTPOutcome.ok body) = Except.error e) ↔
      jsonLoads body = none) ∧
    (jsonLoads body = none →
      get_weather_data jsonLoads (HTTPOutcome.ok body) =
        Except.error ⟨"Couldn't read the server response.".data, 1⟩) ∧
    (∀ j, jsonLoads body = some j →
      get_weather_data jsonLoads (HTTPOutcome.ok body) = Except.ok j) := by
  refine ⟨⟨fun ⟨e, he⟩ => ?_, fun h => ⟨⟨"Couldn't read the server response.".data, 1⟩, ?_⟩⟩,
    fun h => ?_, fun j h => ?_⟩ <;>
    simp only [get_weather_data] at *
  · cases hj : jsonLoads body with
    | none => rfl
    | some j => rw [hj] at he; exact absurd he (by simp)
  · rw [h]
  · rw [h]
  · rw [h]

/-- Witness for C6: the parse theorem applied to an always-failing parser on
the body "not json", and to an always-succeeding parser. -/
theorem get_weather_data_parse_witness :
    ((∃ e, get_weather_data (fun _ => none) (HTTPOutcome.ok "not json".data) =
        Except.error e) ↔
      (fun (_ : PyStr) => (none : Option Json)) "not json".data = none) ∧
    ((fun (_ : PyStr) => (none : Option Json)) "not json".data = none →
      get_weather_data (fun _ => none) (HTTPOutcome.ok "not json".data) =
        Except.error ⟨"Couldn't read the server response.".data, 1⟩) ∧
    (∀ j, (fun (_ : PyStr) => (none : Option Json)) "not json".data = some j →
      get_weather_data (fun _ => none) (HTTPOutcome.ok "not json".data) = Except.ok j) :=
  get_weather_data_parse (fun _ => none) "not json".data

/-! ## `_get_api_key` (`weather.py` lines 66-76)

`ConfigParser.read` on a missing file silently reads nothing, leaving an
empty parser; `config["openweather"]["api_key"]` then raises an uncaught
`KeyError`.  A parsed configuration file is modelled as an association list
of sections, each an association list of keys (first binding wins;
`ConfigParser`'s case folding and DEFAULT-section fallback are not
exercised by any claim and are not modelled).  `none` models the raised
lookup failure. -/

/-- A parsed configuration file: named sections of key/value pairs. -/
structure ConfigData where
  sections : List (PyStr × List (PyStr × PyStr))
  deriving DecidableEq, Repr

/-- Association-list lookup, as `parser[section]` / `section[key]`. -/
def assocLookup (key : PyStr) : List (PyStr × α) → Option α
  | [] => none
  | kv :: rest => if kv.1 = key then some kv.2 else assocLookup key rest

/-- `config.read("secrets.ini")`: a missing file yields an empty parser. -/
def configRead (file : Option ConfigData) : ConfigData :=
  file.getD ⟨[]⟩

/-- `_get_api_key`: read `config["openweather"]["api_key"]` from the local
configuration file; `none` is an uncaught `KeyError`. -/
def get_api_key (file : Option ConfigData) : Option PyStr :=
  let config := configRead file
  (assocLookup "openweather".data config.sections).bind fun section_ =>
    assocLookup "api_key".data section_

/-- C8: `_get_api_key` returns exactly the `api_key` entry of the
`openweather` section, and fails with an uncaught lookup error when the
file is missing, when the section is missing, or when the key is missing
from the section. -/
theorem get_api_key_spec (file : Option ConfigData) :
    (∀ v, get_api_key file = some v ↔
      ∃ sec, assocLookup "openweather".data (configRead file).sections = some sec ∧
        assocLookup "api_key".data sec = some v) ∧
    (file = none → get_api_key file = none) ∧
    (assocLookup "openweather".data (configRead file).sections = none →
      get_api_key file = none) ∧
    (∀ sec, assocLookup "openweather".data (configRead file).sections = some sec →
      assocLookup "api_key".data sec = none → get_api_key file = none) := by
  refine ⟨fun v => ?_, fun h => ?_, fun h => ?_, fun sec h1 h2 => ?_⟩
  · simp only [get_api_key, Option.bind_eq_some]
  · subst h
    rfl
  · simp only [get_api_key, h, Option.bind]
  · simp only [get_api_key, h1, Option.bind, h2]

/-- Witness for C8: the credential-loader theorem applied to a missing file
and to a concrete configuration holding `[openweather] api_key=abc123`. -/
theorem get_api_key_spec_witness :
    get_api_key none = none ∧
    get_api_key (some ⟨[("openweather".data, [("api_key".data, "abc123".data)])]⟩) =
      some "abc123".data :=
  ⟨(get_api_key_spec none).2.1 rfl,
   ((get_api_key_spec
      (some ⟨[("openweather".data, [("api_key".data, "abc123".data)])]⟩)).1
        "abc123".data).mpr
     ⟨[("api_key".data, "abc123".data)], by decide, by decide⟩⟩

/-! ## Percent-encoding (`urllib.parse.quote_plus`)

`quote_plus` with its default arguments UTF-8-encodes the string and then
maps each byte: a space becomes `+`, the always-safe bytes (ASCII letters,
digits, `_`, `.`, `-`, `~`) stand for themselves, and every other byte
becomes `%XX` with upper-case hex digits.  The decoding direction
(`urllib.parse.unquote_plus`, used by the spec's round-trip property) maps
`+` back to a space, `%XX` back to a byte, any other character to its
UTF-8 bytes, and finally UTF-8-decodes the byte sequence. -/

/-- UTF-8 encoding of a Unicode code point. -/
def utf8EncodeNat (n : Nat) : List Nat :=
  if n < 0x80 then [n]
  else if n < 0x800 then [0xC0 + n / 64, 0x80 + n % 64]
  else if n < 0x10000 then [0xE0 + n / 4096, 0x80 + n / 64 % 64, 0x80 + n % 64]
  else [0xF0 + n / 262144, 0x80 + n / 4096 % 64, 0x80 + n / 64 % 64, 0x80 + n % 64]

/-- UTF-8 encoding of a string, as Python's `str.encode("utf-8")`. -/
def utf8Encode (s : PyStr) : List Nat :=
  (s.map fun c => utf8EncodeNat c.toNat).flatten

/-- A UTF-8 continuation byte. -/
def contByte (b : Nat) : Bool := decide (0x80 ≤ b) && decide (b < 0xC0)

/-- Decode the first UTF-8 sequence of a byte list: the code point and the
number of bytes consumed. -/
def utf8DecodeOne : List Nat → Option (Nat × Nat)
  | [] => none
  | b :: bs =>
    if b < 0x80 then some (b, 1)
    else if b < 0xC0 then none
    else if b < 0xE0 then
      match bs with
      | b1 :: _ =>
        if contByte b1 then some ((b - 0xC0) * 64 + (b1 - 0x80), 2) else none
      | [] => none
    else if b < 0xF0 then
      match bs with
      | b1 :: b2 :: _ =>
        if contByte b1 && contByte b2 then
          some ((b - 0xE0) * 4096 + (b1 - 0x80) * 64 + (b2 - 0x80), 3)
        else none
      | _ => none
    else if b < 0xF8 then
      match bs with
      | b1 :: b2 :: b3 :: _ =>
        if contByte b1 && contByte b2 && contByte b3 then
          some ((b - 0xF0) * 262144 + (b1 - 0x80) * 4096 + (b2 - 0x80) * 64 + (b3 - 0x80), 4)
        else none
      | _ => none
    else none

/-- Fuel-indexed UTF-8 decoding loop; the fuel bounds the number of decoded
code points and is consumed one unit per character. -/
def utf8DecodeGo : Nat → List Nat → Option (List Nat)
  | _, [] => some []
  | 0, _ :: _ => none
  | fuel + 1, b :: bs =>
    match utf8DecodeOne (b :: bs) with
    | none => none
    | some (cp, k) => (utf8DecodeGo fuel ((b :: bs).drop k)).map fun r => cp :: r

/-- UTF-8 decoding of a byte list into code points (`none` on malformed
input); a byte list of length `n` holds at most `n` characters. -/
def utf8Decode (l : List Nat) : Option (List Nat) :=
  utf8DecodeGo l.length l

/-- The upper-case hex digit character for a value below 16. -/
def hexUpperDigit (n : Nat) : Char :=
  Char.ofNat (if n < 10 then 48 + n else 55 + n)

/-- The always-safe bytes of `urllib.parse.quote`: ASCII letters, digits and
`_`, `.`, `-`, `~`. -/
def isAlwaysSafe (b : Nat) : Bool :=
  (decide (65 ≤ b) && decide (b ≤ 90)) || (decide (97 ≤ b) && decide (b ≤ 122)) ||
  (decide (48 ≤ b) && decide (b ≤ 57)) || decide (b = 95) || decide (b = 46) ||
  decide (b = 45) || decide (b = 126)

/-- `quote_plus` acting on one byte of the UTF-8 encoding. -/
def quoteByte (b : Nat) : PyStr :=
  if b = 32 then ['+']
  else if isAlwaysSafe b then [Char.ofNat b]
  else ['%', hexUpperDigit (b / 16), hexUpperDigit (b % 16)]

/-- `urllib.parse.quote_plus` with default arguments. -/
def quote_plus (s : PyStr) : PyStr :=
  ((utf8Encode s).map quoteByte).flatten

/-- The numeric value of a hex digit character (upper- or lower-case). -/
def hexVal (c : Char) : Option Nat :=
  if 48 ≤ c.toNat ∧ c.toNat ≤ 57 then some (c.toNat - 48)
  else if 65 ≤ c.toNat ∧ c.toNat ≤ 70 then some (c.toNat - 55)
  else if 97 ≤ c.toNat ∧ c.toNat ≤ 102 then some (c.toNat - 87)
  else none

/-- The byte sequence denoted by a percent-encoded string: `+` is a space,
`%XX` a byte, any other character contributes its UTF-8 bytes (an invalid
escape is kept literally, as `urllib.parse.unquote` does). -/
def unquoteBytes : PyStr → List Nat
  | [] => []
  | c :: c1 :: c2 :: rest2 =>
    if c = '+' then 32 :: unquoteBytes (c1 :: c2 :: rest2)
    else if c = '%' then
      match hexVal c1, hexVal c2 with
      | some hi, some lo => (hi * 16 + lo) :: unquoteBytes rest2
      | _, _ => utf8EncodeNat c.toNat ++ unquoteBytes (c1 :: c2 :: rest2)
    else utf8EncodeNat c.toNat ++ unquoteBytes (c1 :: c2 :: rest2)
  | c :: rest =>
    if c = '+' then 32 :: unquoteBytes rest
    else utf8EncodeNat c.toNat ++ unquoteBytes rest

/-- `urllib.parse.unquote_plus`: percent-decode to bytes, then UTF-8-decode
(`none` on malformed UTF-8). -/
def unquote_plus (s : PyStr) : Option PyStr :=
  (utf8Decode (unquoteBytes s)).map fun cps => cps.map Char.ofNat

/-! ### UTF-8 round trip -/

lemma utf8EncodeNat_ne_nil (n : Nat) : utf8EncodeNat n ≠ [] := by
  unfold utf8EncodeNat
  split_ifs <;> simp

lemma utf8EncodeNat_lt (n : Nat) (hn : n < 1114112) :
    ∀ b ∈ utf8EncodeNat n, b < 256 := by
  intro b hb
  unfold utf8EncodeNat at hb
  split_ifs at hb <;>
    simp only [List.mem_cons, List.not_mem_nil, or_false] at hb <;>
    omega

lemma char_toNat_lt (c : Char) : c.toNat < 1114112 := by
  rcases c.valid with h | h
  · exact lt_trans h (by norm_num)
  · exact h.2

lemma utf8DecodeOne_encode (n : Nat) (hn : n < 1114112) (rest : List Nat) :
    utf8DecodeOne (utf8EncodeNat n ++ rest) =
      some (n, (utf8EncodeNat n).length) := by
  unfold utf8EncodeNat
  split_ifs with h1 h2 h3
  · simp only [List.cons_append, List.nil_append, utf8DecodeOne, List.length_cons,
      List.length_nil]
    rw [if_pos h1]
  · simp only [List.cons_append, List.nil_append, utf8DecodeOne, List.length_cons,
      List.length_nil]
    rw [if_neg (by omega), if_neg (by omega), if_pos (by omega),
      if_pos (show contByte (128 + n % 64) = true by
        simp only [contByte, Bool.and_eq_true, decide_eq_true_eq]; omega),
      show (192 + n / 64 - 192) * 64 + (128 + n % 64 - 128) = n by omega]
  · simp only [List.cons_append, List.nil_append, utf8DecodeOne, List.length_cons,
      List.length_nil]
    rw [if_neg (by omega), if_neg (by omega), if_neg (by omega), if_pos (by omega),
      if_pos (show (contByte (128 + n / 64 % 64) && contByte (128 + n % 64)) = true by
        simp only [contByte, Bool.and_eq_true, decide_eq_true_eq]; omega),
      show (224 + n / 4096 - 224) * 4096 + (128 + n / 64 % 64 - 128) * 64 +
        (128 + n % 64 - 128) = n by omega]
  · simp only [List.cons_append, List.nil_append, utf8DecodeOne, List.length_cons,
      List.length_nil]
    rw [if_neg (by omega), if_neg (by omega), if_neg (by omega), if_neg (by omega),
      if_pos (by omega),
      if_pos (show (contByte (128 + n / 4096 % 64) && contByte (128 + n / 64 % 64) &&
          contByte (128 + n % 64)) = true by
        simp only [contByte, Bool.and_eq_true, decide_eq_true_eq]; omega),
      show (240 + n / 262144 - 240) * 262144 + (128 + n / 4096 % 64 - 128) * 4096 +
        (128 + n / 64 % 64 - 128) * 64 + (128 + n % 64 - 128) = n by omega]

lemma utf8DecodeGo_encode (cps : List Nat) (h : ∀ n ∈ cps, n < 1114112) :
    ∀ fuel, cps.length ≤ fuel →
      utf8DecodeGo fuel ((cps.map utf8EncodeNat).flatten) = some cps := by
  induction cps with
  | nil => intro fuel _; simp [utf8DecodeGo]
  | cons n rest ih =>
    intro fuel hf
    have hn : n < 1114112 := h n (List.mem_cons_self n rest)
    obtain ⟨f, rfl⟩ : ∃ f, fuel = f + 1 :=
      ⟨fuel - 1, by simp only [List.length_cons] at hf; omega⟩
    simp only [List.map_cons, List.flatten_cons]
    obtain ⟨b, bs, he⟩ : ∃ b bs, utf8EncodeNat n = b :: bs := by
      cases hE : utf8EncodeNat n with
      | nil => exact absurd hE (utf8EncodeNat_ne_nil n)
      | cons b bs => exact ⟨b, bs, rfl⟩
    rw [he, List.cons_append]
    simp only [utf8DecodeGo]
    rw [← List.cons_append, ← he, utf8DecodeOne_encode n hn]
    dsimp only
    rw [List.drop_left]
    rw [ih (fun m hm => h m (List.mem_cons_of_mem n hm)) f
      (by simp only [List.length_cons] at hf; omega)]
    rfl

lemma utf8Encode_lt (s : PyStr) : ∀ b ∈ utf8Encode s, b < 256 := by
  intro b hb
  unfold utf8Encode at hb
  rw [List.mem_flatten] at hb
  obtain ⟨l, hl, hbl⟩ := hb
  rw [List.mem_map] at hl
  obtain ⟨c, _, rfl⟩ := hl
  exact utf8EncodeNat_lt c.toNat (char_toNat_lt c) b hbl

lemma length_le_utf8Encode_length (s : PyStr) :
    s.length ≤ (utf8Encode s).length := by
  unfold utf8Encode
  induction s with
  | nil => simp
  | cons c rest ih =>
    simp only [List.map_cons, List.flatten_cons, List.length_cons, List.length_append]
    have : 1 ≤ (utf8EncodeNat c.toNat).length := by
      rcases hE : utf8EncodeNat c.toNat with _ | ⟨b, bs⟩
      · exact absurd hE (utf8EncodeNat_ne_nil c.toNat)
      · simp
    omega

lemma utf8Decode_encode (s : PyStr) :
    utf8Decode (utf8Encode s) = some (s.map Char.toNat) := by
  unfold utf8Decode
  have hs : utf8Encode s = ((s.map Char.toNat).map utf8EncodeNat).flatten := by
    unfold utf8Encode
    rw [List.map_map]
    rfl
  rw [hs]
  refine utf8DecodeGo_encode (s.map Char.toNat) ?_ _ ?_
  · intro m hm
    rw [List.mem_map] at hm
    obtain ⟨c, _, rfl⟩ := hm
    exact char_toNat_lt c
  · rw [← hs]
    calc (s.map Char.toNat).length = s.length := List.length_map s Char.toNat
    _ ≤ (utf8Encode s).length := length_le_utf8Encode_length s

/-! ### Percent-encoding round trip -/

lemma toNat_ofNat_of_le (b : Nat) (hb : b ≤ 126) : (Char.ofNat b).toNat = b := by
  interval_cases b <;> rfl

lemma isAlwaysSafe_bounds (b : Nat) (h : isAlwaysSafe b = true) :
    b ≤ 126 ∧ b ≠ 43 ∧ b ≠ 37 ∧ b ≠ 32 ∧ b ≠ 38 := by
  simp only [isAlwaysSafe, Bool.or_eq_true, Bool.and_eq_true, decide_eq_true_eq] at h
  omega

lemma hexVal_hexUpperDigit (x : Nat) (hx : x < 16) :
    hexVal (hexUpperDigit x) = some x := by
  interval_cases x <;> rfl

lemma unquoteBytes_cons_plus (rest : PyStr) :
    unquoteBytes ('+' :: rest) = 32 :: unquoteBytes rest := by
  match rest with
  | [] => rfl
  | [c1] => rfl
  | c1 :: c2 :: r => rfl

lemma unquoteBytes_cons_other (c : Char) (rest : PyStr) (h1 : c ≠ '+') (h2 : c ≠ '%') :
    unquoteBytes (c :: rest) = utf8EncodeNat c.toNat ++ unquoteBytes rest := by
  match rest with
  | [] =>
    simp only [unquoteBytes]
    rw [if_neg h1]
  | [c1] =>
    simp only [unquoteBytes]
    rw [if_neg h1]
  | c1 :: c2 :: r =>
    simp only [unquoteBytes]
    rw [if_neg h1, if_neg h2]

lemma unquoteBytes_cons_escape (d1 d2 : Char) (rest : PyStr) (hi lo : Nat)
    (h1 : hexVal d1 = some hi) (h2 : hexVal d2 = some lo) :
    unquoteBytes ('%' :: d1 :: d2 :: rest) = (hi * 16 + lo) :: unquoteBytes rest := by
  simp only [unquoteBytes]
  rw [h1, h2]
  simp

lemma unquoteBytes_quoteByte (b : Nat) (hb : b < 256) (rest : PyStr) :
    unquoteBytes (quoteByte b ++ rest) = b :: unquoteBytes rest := by
  unfold quoteByte
  split_ifs with h1 h2
  · subst h1
    exact unquoteBytes_cons_plus rest
  · obtain ⟨hle, hne43, hne37, _, _⟩ := isAlwaysSafe_bounds b h2
    have htn : (Char.ofNat b).toNat = b := toNat_ofNat_of_le b hle
    rw [List.cons_append, List.nil_append,
      unquoteBytes_cons_other (Char.ofNat b) rest
        (fun he => hne43 (by rw [← htn, he]; rfl))
        (fun he => hne37 (by rw [← htn, he]; rfl)),
      htn]
    unfold utf8EncodeNat
    rw [if_pos (by omega)]
    rfl
  · rw [List.cons_append, List.cons_append, List.cons_append, List.nil_append,
      unquoteBytes_cons_escape (hexUpperDigit (b / 16)) (hexUpperDigit (b % 16)) rest
        (b / 16) (b % 16)
        (hexVal_hexUpperDigit (b / 16) (by omega))
        (hexVal_hexUpperDigit (b % 16) (by omega)),
      show b / 16 * 16 + b % 16 = b by omega]

lemma unquoteBytes_quote (bytes : List Nat) (hb : ∀ b ∈ bytes, b < 256) :
    unquoteBytes ((bytes.map quoteByte).flatten) = bytes := by
  induction bytes with
  | nil => rfl
  | cons b rest ih =>
    simp only [List.map_cons, List.flatten_cons]
    rw [unquoteBytes_quoteByte b (hb b (List.mem_cons_self b rest)) _,
      ih (fun m hm => hb m (List.mem_cons_of_mem b hm))]

/-- The central round-trip fact: decoding the percent-encoded form of any
string restores the string. -/
theorem unquote_plus_quote_plus (s : PyStr) :
    unquote_plus (quote_plus s) = some s := by
  unfold unquote_plus quote_plus
  rw [unquoteBytes_quote (utf8Encode s) (utf8Encode_lt s), utf8Decode_encode s]
  have hco : (Char.ofNat ∘ Char.toNat) = id := funext fun c => Char.ofNat_toNat c
  simp only [Option.map_some', List.map_map, hco, List.map_id]

/-- Injectivity of `quote_plus`: distinct strings have distinct encodings. -/
theorem quote_plus_injective (s t : PyStr) (h : quote_plus s = quote_plus t) :
    s = t := by
  have hs := unquote_plus_quote_plus s
  rw [h, unquote_plus_quote_plus t] at hs
  exact ((Option.some.injEq t s).mp hs).symm

/-! ## `build_weather_query` (`weather.py` lines 46-63) -/

def BASE_WEATHER_API_URL : PyStr :=
  "http://api.openweathermap.org/data/2.5/weather".data

/-- `build_weather_query`: join the city tokens with single spaces
(`" ".join(city_input)`), percent-encode the joined name, and interpolate
it, the fixed metric units and the loaded API key into the request URL.
The API key comes from `_get_api_key()`; a `none` result propagates its
uncaught lookup failure. -/
def build_weather_query (city_input : List PyStr) (file : Option ConfigData) :
    Option PyStr :=
  (get_api_key file).map fun api_key =>
    let city_name := List.intercalate " ".data city_input
    let url_encoded_city_name := quote_plus city_name
    let units := "metric".data
    BASE_WEATHER_API_URL ++ "?q=".data ++ url_encoded_city_name ++
      "&units=".data ++ units ++ "&appid=".data ++ api_key

/-! ## Reading a query parameter back out of a URL

Spec-side decoder for the round-trip properties: the query string is the
part after the first `?`, parameters are separated by `&`, and each
parameter's name is the part before its first `=`. -/

/-- Split a string at every occurrence of a separator character. -/
def splitOnChar (sep : Char) : PyStr → List PyStr
  | [] => [[]]
  | c :: rest =>
    if c = sep then [] :: splitOnChar sep rest
    else
      match splitOnChar sep rest with
      | r :: rs => (c :: r) :: rs
      | [] => [[c]]

/-- The query string of a URL: everything after the first `?`. -/
def queryPart (url : PyStr) : PyStr :=
  (url.dropWhile fun c => c ≠ '?').drop 1

/-- The `name=value` parameters of a query string, in order. -/
def paramsOf (q : PyStr) : List (PyStr × PyStr) :=
  (splitOnChar '&' q).map fun p =>
    (p.takeWhile fun c => c ≠ '=', (p.dropWhile fun c => c ≠ '=').drop 1)

/-- The value of the first query parameter with the given name. -/
def getParam (name url : PyStr) : Option PyStr :=
  ((paramsOf (queryPart url)).find? fun kv => kv.1 == name).map fun kv => kv.2

/-! ### Extracting the `q` parameter of the built URL -/

lemma hexUpperDigit_toNat (x : Nat) (hx : x < 16) :
    (hexUpperDigit x).toNat = if x < 10 then 48 + x else 55 + x := by
  unfold hexUpperDigit
  split_ifs with h
  · exact toNat_ofNat_of_le _ (by omega)
  · exact toNat_ofNat_of_le _ (by omega)

lemma quoteByte_no_amp (b : Nat) (hb : b < 256) :
    ∀ c ∈ quoteByte b, c ≠ '&' := by
  intro c hc he
  have h38 : c.toNat = 38 := by rw [he]; rfl
  unfold quoteByte at hc
  split_ifs at hc with h1 h2
  · simp only [List.mem_cons, List.not_mem_nil, or_false] at hc
    subst hc
    exact absurd h38 (by decide)
  · simp only [List.mem_cons, List.not_mem_nil, or_false] at hc
    subst hc
    obtain ⟨hle, _, _, _, hne38⟩ := isAlwaysSafe_bounds b h2
    rw [toNat_ofNat_of_le b hle] at h38
    exact hne38 h38
  · simp only [List.mem_cons, List.not_mem_nil, or_false] at hc
    rcases hc with rfl | rfl | rfl
    · exact absurd h38 (by decide)
    · rw [hexUpperDigit_toNat (b / 16) (by omega)] at h38
      split_ifs at h38 <;> omega
    · rw [hexUpperDigit_toNat (b % 16) (by omega)] at h38
      split_ifs at h38 <;> omega

lemma quote_plus_no_amp (s : PyStr) : ∀ c ∈ quote_plus s, c ≠ '&' := by
  intro c hc
  unfold quote_plus at hc
  rw [List.mem_flatten] at hc
  obtain ⟨l, hl, hcl⟩ := hc
  rw [List.mem_map] at hl
  obtain ⟨b, hb, rfl⟩ := hl
  exact quoteByte_no_amp b (utf8Encode_lt s b hb) c hcl

lemma dropWhile_append_of_forall (p : Char → Bool) (l r : PyStr)
    (h : ∀ c ∈ l, p c = true) : List.dropWhile p (l ++ r) = List.dropWhile p r := by
  induction l with
  | nil => rfl
  | cons c t ih =>
    rw [List.cons_append, List.dropWhile_cons, if_pos (h c (List.mem_cons_self c t)),
      ih (fun d hd => h d (List.mem_cons_of_mem c hd))]

lemma splitOnChar_ne_nil (sep : Char) (l : PyStr) : splitOnChar sep l ≠ [] := by
  induction l with
  | nil => simp [splitOnChar]
  | cons c t ih =>
    simp only [splitOnChar]
    split_ifs
    · simp
    · rcases h : splitOnChar sep t with _ | ⟨r, rs⟩
      · exact absurd h ih
      · simp

lemma splitOnChar_append (sep : Char) (pre : PyStr) (rest : PyStr)
    (h : ∀ c ∈ pre, c ≠ sep) :
    splitOnChar sep (pre ++ sep :: rest) = pre :: splitOnChar sep rest := by
  induction pre with
  | nil =>
    simp only [List.nil_append, splitOnChar, if_true]
  | cons c t ih =>
    rw [List.cons_append]
    simp only [splitOnChar]
    rw [if_neg (h c (List.mem_cons_self c t)),
      ih (fun d hd => h d (List.mem_cons_of_mem c hd))]

/-- The decomposed form of the URL built for an encoded city name `e` and a
loaded key. -/
lemma build_weather_query_decomp (city_input : List PyStr) (file : Option ConfigData)
    (key : PyStr) (h : get_api_key file = some key) :
    build_weather_query city_input file =
      some (BASE_WEATHER_API_URL ++
        '?' :: 'q' :: '=' ::
          (quote_plus (List.intercalate " ".data city_input) ++
            '&' :: ("units=metric&appid=".data ++ key))) := by
  unfold build_weather_query
  rw [h, Option.map_some']
  congr 1
  rw [show "?q=".data = ['?', 'q', '='] from rfl,
    show "&units=".data = ['&', 'u', 'n', 'i', 't', 's', '='] from rfl,
    show "metric".data = ['m', 'e', 't', 'r', 'i', 'c'] from rfl,
    show "&appid=".data = ['&', 'a', 'p', 'p', 'i', 'd', '='] from rfl,
    show ("units=metric&appid=".data : PyStr) =
      ['u', 'n', 'i', 't', 's', '=', 'm', 'e', 't', 'r', 'i', 'c',
       '&', 'a', 'p', 'p', 'i', 'd', '='] from rfl]
  simp [List.append_assoc]

/-- Reading the `q` parameter back from a URL of the decomposed form. -/
lemma getParam_q (e rest : PyStr) (he : ∀ c ∈ e, c ≠ '&') :
    getParam "q".data
      (BASE_WEATHER_API_URL ++ '?' :: 'q' :: '=' :: (e ++ '&' :: rest)) = some e := by
  unfold getParam queryPart paramsOf
  rw [dropWhile_append_of_forall _ BASE_WEATHER_API_URL _ (by decide),
    List.dropWhile_cons, if_neg (by decide)]
  rw [show ('?' :: 'q' :: '=' :: (e ++ '&' :: rest)).drop 1
      = ('q' :: '=' :: e) ++ '&' :: rest by simp]
  rw [splitOnChar_append '&' ('q' :: '=' :: e) rest (by
    intro c hc
    simp only [List.mem_cons] at hc
    rcases hc with rfl | rfl | hc
    · decide
    · decide
    · exact he c hc)]
  rw [List.map_cons, List.find?_cons_of_pos _ (by
    rw [show List.takeWhile (fun c => decide (c ≠ '=')) ('q' :: '=' :: e) = ['q'] by
      simp [List.takeWhile_cons]]
    rfl)]
  rw [Option.map_some']
  congr 1

/-- C3: the `q` parameter of the URL built for any list of city tokens
decodes back to exactly the tokens joined with single spaces, and distinct
joined city names give distinct percent-encodings and distinct URLs. -/
theorem build_weather_query_roundtrip (city_input : List PyStr)
    (file : Option ConfigData) (key : PyStr)
    (hkey : get_api_key file = some key) :
    (∃ url, build_weather_query city_input file = some url ∧
      getParam "q".data url =
        some (quote_plus (List.intercalate " ".data city_input))) ∧
    unquote_plus (quote_plus (List.intercalate " ".data city_input)) =
      some (List.intercalate " ".data city_input) ∧
    ∀ city2 : List PyStr,
      List.intercalate " ".data city2 ≠ List.intercalate " ".data city_input →
      quote_plus (List.intercalate " ".data city2) ≠
        quote_plus (List.intercalate " ".data city_input) ∧
      build_weather_query city2 file ≠ build_weather_query city_input file := by
  refine ⟨⟨_, build_weather_query_decomp city_input file key hkey,
      getParam_q _ _ (quote_plus_no_amp _)⟩,
    unquote_plus_quote_plus _,
    fun city2 hne => ⟨fun he => hne (quote_plus_injective _ _ he), fun he => ?_⟩⟩
  rw [build_weather_query_decomp city2 file key hkey,
    build_weather_query_decomp city_input file key hkey] at he
  have he2 := (Option.some.injEq _ _).mp he
  have h3 := List.append_cancel_left he2
  simp only [List.cons.injEq, true_and] at h3
  exact hne (quote_plus_injective _ _ (List.append_cancel_right h3))

/-- Witness for C3: the round-trip theorem applied to the city tokens
`["San", "Francisco"]` and a configuration holding the key `secret`. -/
theorem build_weather_query_roundtrip_witness :
    (∃ url, build_weather_query ["San".data, "Francisco".data]
        (some ⟨[("openweather".data, [("api_key".data, "secret".data)])]⟩) = some url ∧
      getParam "q".data url =
        some (quote_plus
          (List.intercalate " ".data ["San".data, "Francisco".data]))) ∧
    unquote_plus (quote_plus
        (List.intercalate " ".data ["San".data, "Francisco".data])) =
      some (List.intercalate " ".data ["San".data, "Francisco".data]) ∧
    ∀ city2 : List PyStr,
      List.intercalate " ".data city2 ≠
        List.intercalate " ".data ["San".data, "Francisco".data] →
      quote_plus (List.intercalate " ".data city2) ≠
        quote_plus (List.intercalate " ".data ["San".data, "Francisco".data]) ∧
      build_weather_query city2
          (some ⟨[("openweather".data, [("api_key".data, "secret".data)])]⟩) ≠
        build_weather_query ["San".data, "Francisco".data]
          (some ⟨[("openweather".data, [("api_key".data, "secret".data)])]⟩) :=
  build_weather_query_roundtrip ["San".data, "Francisco".data]
    (some ⟨[("openweather".data, [("api_key".data, "secret".data)])]⟩)
    "secret".data (by decide)

/-- C7: `build_weather_query` is a pure function of the city tokens and the
loaded API key: two invocations on the same inputs give the same URL, and
any two configuration states from which the same key is loaded give the
same URL (no hidden state beyond the loaded key). -/
theorem build_weather_query_deterministic (city_input : List PyStr)
    (file1 file2 : Option ConfigData)
    (h : get_api_key file1 = get_api_key file2) :
    build_weather_query city_input file1 = build_weather_query city_input file1 ∧
    build_weather_query city_input file1 = build_weather_query city_input file2 := by
  refine ⟨rfl, ?_⟩
  unfold build_weather_query
  rw [h]

/-- Witness for C7: the determinism theorem applied to the city tokens
`["New", "York"]` and two configuration files holding the same key. -/
theorem build_weather_query_deterministic_witness :
    build_weather_query ["New".data, "York".data]
        (some ⟨[("openweather".data, [("api_key".data, "k1".data)])]⟩) =
      build_weather_query ["New".data, "York".data]
        (some ⟨[("openweather".data, [("api_key".data, "k1".data)])]⟩) ∧
    build_weather_query ["New".data, "York".data]
        (some ⟨[("openweather".data, [("api_key".data, "k1".data)])]⟩) =
      build_weather_query ["New".data, "York".data]
        (some ⟨[("openweather".data,
          [("api_key".data, "k1".data), ("other".data, "x".data)])]⟩) :=
  build_weather_query_deterministic ["New".data, "York".data]
    (some ⟨[("openweather".data, [("api_key".data, "k1".data)])]⟩)
    (some ⟨[("openweather".data,
      [("api_key".data, "k1".data), ("other".data, "x".data)])]⟩)
    (by decide)

/-- C10: the API key is interpolated into the URL verbatim, so a key
containing the reserved character `&` is cut short when the `appid`
parameter is parsed back: for the key `a&b` the parsed `appid` value is
`a`, not the loaded key. -/
theorem build_weather_query_key_not_escaped :
    ∃ url, build_weather_query [['x']]
        (some ⟨[("openweather".data, [("api_key".data, "a&b".data)])]⟩) = some url ∧
      getParam "appid".data url = some "a".data ∧
      getParam "appid".data url ≠ some "a&b".data :=
  ⟨("http://api.openweathermap.org/data/2.5/weather" ++
      "?q=x&units=metric&appid=a&b").data,
   by decide, by decide, by decide⟩

/-! ## `display_weather_info` (`weather.py` lines 106-131)

The function first extracts the city name, the primary weather entry's
`id` and `description` and the temperature (lines 114-117) and only then
prints.  Failed dictionary/list lookups raise uncaught `LookupError`s
(`KeyError`/`IndexError`); the model returns the text printed before the
failure together with the error.  Output is modelled as the single string
written to the terminal, `style.change_color` contributing the token's
escape text. -/

/-- A raised `LookupError`: Python's `KeyError` or `IndexError`. -/
inductive LookupKind where
  | key
  | index
  deriving DecidableEq, Repr

/-- An uncaught error raised by `display_weather_info`; `unmodelled` stands
for inputs (non-`int` weather id, non-`str` description) whose Python
behavior the model does not reproduce. -/
inductive PyErr where
  | lookup (kind : LookupKind)
  | unmodelled
  deriving DecidableEq, Repr

/-- `weather_data[k]`: dictionary lookup, `none` = an uncaught lookup
failure. -/
def dictGet (j : Json) (key : PyStr) : Option Json :=
  match j with
  | Json.obj fields => assocLookup key fields
  | _ => none

/-- `xs[i]` on a JSON list, `none` = an uncaught lookup failure. -/
def pyIndex (j : Json) (i : Nat) : Option Json :=
  match j with
  | Json.arr xs => xs.get? i
  | _ => none

/-- Python `str.capitalize`: first character upper-cased, the rest
lower-cased (ASCII case mapping; every claim's description is ASCII). -/
def capitalize : PyStr → PyStr
  | [] => []
  | c :: rest => c.toUpper :: rest.map Char.toLower

/-- Python's `^width` format alignment: the margin split with the smaller
half on the left. -/
def pyCenter (s : PyStr) (width : Nat) : PyStr :=
  let marg := width - s.length
  let left := marg / 2
  List.replicate left ' ' ++ s ++ List.replicate (marg - left) ' '

/-- Python `str()` of a JSON value as the program prints it; the `repr` of
containers is not modelled (no claim evaluates it). -/
def pyToString : Json → PyStr
  | Json.str s => s
  | Json.intNum n => (toString n).data
  | Json.floatNum printed => printed
  | Json.bool b => if b then "True".data else "False".data
  | Json.null => "None".data
  | Json.arr _ => []
  | Json.obj _ => []

/-- `display_weather_info`: extract city, weather id, description and
temperature, then print the styled line.  Returns the printed text and the
uncaught error, if any. -/
def display_weather_info (weather_data : Json) : PyStr × Option PyErr :=
  match dictGet weather_data "name".data with
  | none => ([], some (PyErr.lookup LookupKind.key))
  | some cityJ =>
  match dictGet weather_data "weather".data with
  | none => ([], some (PyErr.lookup LookupKind.key))
  | some weatherJ =>
  match pyIndex weatherJ 0 with
  | none => ([], some (PyErr.lookup LookupKind.index))
  | some w0 =>
  match dictGet w0 "id".data with
  | none => ([], some (PyErr.lookup LookupKind.key))
  | some idJ =>
  match dictGet w0 "description".data with
  | none => ([], some (PyErr.lookup LookupKind.key))
  | some descJ =>
  match dictGet weather_data "main".data with
  | none => ([], some (PyErr.lookup LookupKind.key))
  | some mainJ =>
  match dictGet mainJ "temp".data with
  | none => ([], some (PyErr.lookup LookupKind.key))
  | some tempJ =>
  match idJ, descJ with
  | Json.intNum weather_id, Json.str weather_description =>
    let params := select_weather_display_params weather_id
    (colorText Color.REVERSE ++ pyCenter (pyToString cityJ) PADDING ++
      colorText Color.RESET ++
      colorText params.2 ++
      '\t' :: params.1 ++ " ".data ++
      '\t' :: pyCenter (capitalize weather_description) PADDING ++ " ".data ++
      colorText Color.RESET ++
      "(".data ++ pyToString tempJ ++ "\u00C2\u00B0C)".data,
      none)
  | _, _ => ([], some PyErr.unmodelled)

/-- C9: a weather dictionary whose `weather` field is the empty list makes
`display_weather_info` raise an uncaught lookup error before anything is
printed; when the `name` lookup succeeds the error is specifically the
`IndexError` of `weather_data["weather"][0]`. -/
theorem display_weather_info_empty_weather (wd : Json)
    (h : dictGet wd "weather".data = some (Json.arr [])) :
    (display_weather_info wd).1 = [] ∧
    (∃ k, (display_weather_info wd).2 = some (PyErr.lookup k)) ∧
    (∀ cj, dictGet wd "name".data = some cj →
      (display_weather_info wd).2 = some (PyErr.lookup LookupKind.index)) := by
  cases hn : dictGet wd "name".data with
  | none =>
    have hd : display_weather_info wd = ([], some (PyErr.lookup LookupKind.key)) := by
      unfold display_weather_info
      rw [hn]
    refine ⟨by rw [hd], ⟨LookupKind.key, by rw [hd]⟩, fun cj hcj => ?_⟩
    exact absurd hcj (by simp)
  | some cityJ =>
    have hd : display_weather_info wd =
        ([], some (PyErr.lookup LookupKind.index)) := by
      unfold display_weather_info
      rw [hn, h]
      rfl
    exact ⟨by rw [hd], ⟨LookupKind.index, by rw [hd]⟩, fun cj hcj => by rw [hd]⟩

/-- Witness for C9: the empty-weather theorem applied to the concrete
response `{"name": "X", "weather": []}`. -/
theorem display_weather_info_empty_weather_witness :
    (display_weather_info (Json.obj [("name".data, Json.str "X".data),
        ("weather".data, Json.arr [])])).1 = [] ∧
    (∃ k, (display_weather_info (Json.obj [("name".data, Json.str "X".data),
        ("weather".data, Json.arr [])])).2 = some (PyErr.lookup k)) ∧
    (∀ cj, dictGet (Json.obj [("name".data, Json.str "X".data),
        ("weather".data, Json.arr [])]) "name".data = some cj →
      (display_weather_info (Json.obj [("name".data, Json.str "X".data),
        ("weather".data, Json.arr [])])).2 =
        some (PyErr.lookup LookupKind.index)) :=
  display_weather_info_empty_weather
    (Json.obj [("name".data, Json.str "X".data), ("weather".data, Json.arr [])]) rfl

/-- The mocked API response of the spec's end-to-end scenario 1:
`{"name":"Paris","weather":[{"id":800,"description":"clear sky"}],
"main":{"temp":18.5}}`. -/
def parisWeatherData : Json :=
  Json.obj [("name".data, Json.str "Paris".data),
    ("weather".data, Json.arr [Json.obj [("id".data, Json.intNum 800),
      ("description".data, Json.str "clear sky".data)]]),
    ("main".data, Json.obj [("temp".data, Json.floatNum "18.5".data)])]

set_option maxRecDepth 8000 in
/-- Counterexample for C4: on the Paris response the printed output contains
neither "Clear Sky" (Python's `str.capitalize` lower-cases the rest of the
string, giving "Clear sky") nor "18.5\u00B0C" (the source file's degree sign is
the doubly encoded two-character sequence `Â°`). -/
theorem display_paris_not_as_claimed :
    ¬ ("Clear Sky".data <:+: (display_weather_info parisWeatherData).1) ∧
    ¬ ("18.5\u00B0C".data <:+: (display_weather_info parisWeatherData).1) := by
  decide

set_option maxRecDepth 8000 in
/-- C4 (amended): on the Paris response the program prints without error,
and the output contains "Paris", the clear-sky symbol as it appears in the
source, the capitalized description "Clear sky", and "18.5\u00C2\u00B0C" (the
temperature with the source file's two-character degree sequence). -/
theorem display_paris_output :
    (display_weather_info parisWeatherData).2 = none ∧
    "Paris".data <:+: (display_weather_info parisWeatherData).1 ∧
    "\u00E2\u02DC\u20AC\u00EF\u00B8".data <:+:
      (display_weather_info parisWeatherData).1 ∧
    "Clear sky".data <:+: (display_weather_info parisWeatherData).1 ∧
    "18.5\u00C2\u00B0C".data <:+: (display_weather_info parisWeatherData).1 := by
  decide

end CliWeather
